import Mathlib

/-!
Shallow embedding of CocaKE_ver3/doc.py: the Example record, the Dataset
index construction, collation padding, data loading, and the
RelationBatchSampler with its concept_filter.

Modelling conventions: Python dicts are insertion-ordered association
lists; raised exceptions are Option.none; Python floats (cake_ratio) are
rationals; randomness is an explicit oracle function supplying choice
indices into the sampled population.
-/

set_option maxHeartbeats 2000000

namespace CocaKE

/-- Python dict read d[k]; none models a KeyError. -/
def dictGet {κ β : Type} [DecidableEq κ] : List (κ × β) → κ → Option β
  | [], _ => none
  | (k', v) :: rest, k => if k' = k then some v else dictGet rest k

/-- Python dict write d[k] = v: update in place preserving insertion order
when the key is present, otherwise append at the end. -/
def dictSet {κ β : Type} [DecidableEq κ] : List (κ × β) → κ → β → List (κ × β)
  | [], k, v => [(k, v)]
  | (k', v') :: rest, k, v =>
    if k' = k then (k', v) :: rest else (k', v') :: dictSet rest k v

/-- Python membership test k in d. -/
def dictMem {κ β : Type} [DecidableEq κ] (m : List (κ × β)) (k : κ) : Bool :=
  (dictGet m k).isSome

/-- list(set(xs)): de-duplication, keeping one copy of each element. -/
def pyDedup {α : Type} [DecidableEq α] : List α → List α
  | [] => []
  | a :: rest => if a ∈ pyDedup rest then pyDedup rest else a :: pyDedup rest

/-- One triplet example: head entity id, relation string, tail entity id
(doc.py class Example stores exactly these three fields). -/
structure Example where
  head_id : String
  relation : String
  tail_id : String
deriving DecidableEq, Repr

/-- The index structures built by Dataset.__init__ (doc.py lines 131-157).
The diagnostic rel_hent table is marked for deletion in the source and
only printed, so it is omitted. -/
structure DatasetIdx where
  rels : List String
  rel2ent_t : List (String × List (String × List Nat))
  rel_ex_cnt : List (String × Nat)
  ex_hid : List (Nat × String)
  idx2example : List (Nat × Example)
deriving DecidableEq, Repr

def emptyIdx : DatasetIdx := ⟨[], [], [], [], []⟩

/-- One iteration of the Dataset.__init__ indexing loop for example e at
index i.  Note the source assigns rel2ent_t[relation][tail_id] = [i],
overwriting any previous bucket content. -/
def buildStep (d : DatasetIdx) (i : Nat) (e : Example) : DatasetIdx :=
  { rels := d.rels ++ [e.relation]
    rel2ent_t :=
      match dictGet d.rel2ent_t e.relation with
      | some inner => dictSet d.rel2ent_t e.relation (dictSet inner e.tail_id [i])
      | none => d.rel2ent_t ++ [(e.relation, [(e.tail_id, [i])])]
    rel_ex_cnt :=
      match dictGet d.rel_ex_cnt e.relation with
      | some c => dictSet d.rel_ex_cnt e.relation (c + 1)
      | none => d.rel_ex_cnt ++ [(e.relation, 1)]
    ex_hid := dictSet d.ex_hid i e.head_id
    idx2example := dictSet d.idx2example i e }

def buildIdxAux : Nat → List Example → DatasetIdx → DatasetIdx
  | _, [], d => d
  | i, e :: rest, d => buildIdxAux (i + 1) rest (buildStep d i e)

/-- The full enumerate loop of Dataset.__init__. -/
def buildIdx (exs : List Example) : DatasetIdx := buildIdxAux 0 exs emptyIdx

/-- Number of (relation, tail) buckets of rel2ent_t that contain example
index i. -/
def bucketCount (d : DatasetIdx) (i : Nat) : Nat :=
  (d.rel2ent_t.map (fun rt => (rt.2.map (fun tl => if i ∈ tl.2 then 1 else 0)).sum)).sum

/-! Collation padding: to_indices_and_mask (doc.py lines 280-294). -/

/-- indices[i, :len(t)].copy_(t) on a row initialized to base: the first
len(row) positions become row, the rest keep base. -/
def overwriteRow {α : Type} (base row : List α) : List α :=
  row ++ base.drop row.length

/-- to_indices_and_mask: pads every row to the batch maximum length with
pad_token_id and, when need_mask, builds the byte validity mask.  The none
result models the ValueError of max([]) on an empty batch. -/
def to_indices_and_mask (batch : List (List Int)) (pad_token_id : Int)
    (need_mask : Bool) : Option (List (List Int) × Option (List (List Nat))) :=
  if batch.isEmpty then none
  else
    let mx_len := (batch.map List.length).foldl Nat.max 0
    let indices := batch.map (fun t => overwriteRow (List.replicate mx_len pad_token_id) t)
    if need_mask then
      let mask := batch.map (fun t =>
        overwriteRow (List.replicate mx_len (0 : Nat)) (List.replicate t.length 1))
      some (indices, some mask)
    else
      some (indices, none)

/-! Data loading: load_data (doc.py lines 177-197) and the Dataset
example-list assembly (doc.py lines 118-130).  The JSON parse and the
external reverse_triplet helper are parameters. -/

/-- One parsed JSON triplet object; extra keys are accepted and ignored by
Example(**obj), so only the three identifier fields are modelled. -/
structure Triplet where
  head_id : String
  relation : String
  tail_id : String
deriving DecidableEq, Repr

def exampleOfTriplet (t : Triplet) : Example := ⟨t.head_id, t.relation, t.tail_id⟩

/-- Python str.endswith, evaluated on the underlying character lists. -/
def pyEndsWith (s suffix : String) : Bool := suffix.data.isSuffixOf s.data

/-- load_data: asserts the .json extension and that at least one direction
is requested, then for each object appends the forward Example and then the
backward Example built from reverse_triplet.  none models a failed assert. -/
def load_data (path : String) (data : List Triplet) (rev : Triplet → Triplet)
    (add_forward_triplet add_backward_triplet : Bool) : Option (List Example) :=
  if !pyEndsWith path ".json" then none
  else if !(add_forward_triplet || add_backward_triplet) then none
  else some (data.flatMap fun obj =>
    (if add_forward_triplet then [exampleOfTriplet obj] else []) ++
    (if add_backward_triplet then [exampleOfTriplet (rev obj)] else []))

/-- Dataset.__init__ example assembly over the comma-split path list: the
per-path load_data results are concatenated in order (the first call seeds
self.examples, later calls extend it). -/
def loadFiles (rev : Triplet → Triplet) (fwd bwd : Bool) :
    List (String × List Triplet) → Option (List Example)
  | [] => some []
  | (p, d) :: rest => do
    let e1 ← load_data p d rev fwd bwd
    let e2 ← loadFiles rev fwd bwd rest
    some (e1 ++ e2)

/-! Example text accessors and vectorize (doc.py lines 35-113).  The entity
directory, link graph and tokenizer are external collaborators and enter as
parameters; a failed directory lookup (missing id) is none. -/

/-- Entity record returned by the entity directory. -/
structure Entity where
  entity : String
  entity_desc : String
deriving DecidableEq, Repr

/-- Configuration fields consumed by the Example layer. -/
structure Config where
  task : String
  use_link_graph : Bool
  is_test : Bool
deriving Repr

/-- Tokenizer output for one call. -/
structure TokOut where
  input_ids : List Nat
  token_type_ids : List Nat
deriving DecidableEq, Repr

/-- External collaborators: tokenizer (text, optional text_pair) and the
link graph neighbor lookup. -/
structure Collab where
  tok : String → Option String → TokOut
  neighbors : String → List String

/-- Python str.split() with no argument: split on whitespace, dropping the
empty pieces. -/
def pySplitWs (s : String) : List String :=
  (s.split Char.isWhitespace).filter (fun w => w ≠ "")

/-- The helper _parse_entity_name: for the wn18rr task strip the two-token
part-of-speech/sense suffix, otherwise return the name verbatim (the
`entity or empty-string` fallback is the identity on modelled strings). -/
def parseEntityName (cfg : Config) (entity : String) : String :=
  if cfg.task.toLower = "wn18rr" then
    String.intercalate " " ((entity.splitOn "_").dropLast.dropLast)
  else entity

/-- The helper _concat_name_desc: strip the entity name from the front of the
description, then join as "name: desc" (or just the name if no desc). -/
def concatNameDesc (entity entity_desc : String) : String :=
  let entity_desc :=
    if entity_desc.startsWith entity then (entity_desc.drop entity.length).trim
    else entity_desc
  if entity_desc ≠ "" then entity ++ ": " ++ entity_desc else entity

/-- get_neighbor_desc: neighbor ids of head_id, tail filtered out during
training, each resolved in the entity directory, parsed, space-joined. -/
def getNeighborDesc (cfg : Config) (cl : Collab) (edict : List (String × Entity))
    (head_id : String) (tail_id : String) : Option String := do
  let neighbor_ids := cl.neighbors head_id
  let neighbor_ids :=
    if !cfg.is_test then neighbor_ids.filter (fun n_id => n_id ≠ tail_id)
    else neighbor_ids
  let entities ← neighbor_ids.mapM (fun n_id => (dictGet edict n_id).map Entity.entity)
  some (String.intercalate " " (entities.map (parseEntityName cfg)))

/-- Example.head property: empty head_id short-circuits to the empty string
without consulting the entity directory. -/
def Example.head (e : Example) (edict : List (String × Entity)) : Option String :=
  if e.head_id = "" then some "" else (dictGet edict e.head_id).map Entity.entity

/-- Example.head_desc property: same short-circuit as head. -/
def Example.head_desc (e : Example) (edict : List (String × Entity)) : Option String :=
  if e.head_id = "" then some "" else (dictGet edict e.head_id).map Entity.entity_desc

/-- Example.tail property: always delegates to the entity directory. -/
def Example.tail (e : Example) (edict : List (String × Entity)) : Option String :=
  (dictGet edict e.tail_id).map Entity.entity

/-- Example.tail_desc property: always delegates to the entity directory. -/
def Example.tail_desc (e : Example) (edict : List (String × Entity)) : Option String :=
  (dictGet edict e.tail_id).map Entity.entity_desc

/-- The vectorized dict produced by Example.vectorize. -/
structure Vectorized where
  hr_token_ids : List Nat
  hr_token_type_ids : List Nat
  tail_token_ids : List Nat
  tail_token_type_ids : List Nat
  head_token_ids : List Nat
  head_token_type_ids : List Nat
  obj : Example
deriving DecidableEq, Repr

/-- Example.vectorize (doc.py lines 89-113): fetch descriptions, optionally
augment short ones with neighbor names, tokenize the three texts; the
text_pair for head+relation degrades to none when the relation string is
empty, mirroring the text_pair-if-text_pair-else-None guard. -/
def Example.vectorize (cfg : Config) (cl : Collab) (edict : List (String × Entity))
    (e : Example) : Option Vectorized := do
  let head_desc ← e.head_desc edict
  let tail_desc ← e.tail_desc edict
  let head_desc ←
    if cfg.use_link_graph && (pySplitWs head_desc).length < 20 then
      (getNeighborDesc cfg cl edict e.head_id e.tail_id).map
        (fun nd => head_desc ++ " " ++ nd)
    else some head_desc
  let tail_desc ←
    if cfg.use_link_graph && (pySplitWs tail_desc).length < 20 then
      (getNeighborDesc cfg cl edict e.tail_id e.head_id).map
        (fun nd => tail_desc ++ " " ++ nd)
    else some tail_desc
  let head ← e.head edict
  let head_word := parseEntityName cfg head
  let head_text := concatNameDesc head_word head_desc
  let hr := cl.tok head_text (if e.relation = "" then none else some e.relation)
  let head_enc := cl.tok head_text none
  let tail ← e.tail edict
  let tail_word := parseEntityName cfg tail
  let tail_enc := cl.tok (concatNameDesc tail_word tail_desc) none
  some { hr_token_ids := hr.input_ids
         hr_token_type_ids := hr.token_type_ids
         tail_token_ids := tail_enc.input_ids
         tail_token_type_ids := tail_enc.token_type_ids
         head_token_ids := head_enc.input_ids
         head_token_type_ids := head_enc.token_type_ids
         obj := e }

/-! RelationBatchSampler (doc.py lines 297-372).  The cake_ratio float is
modelled as a rational; random.choices is modelled by an oracle function
giving, for each draw, an index into the sampled population (every element
of a nonempty population is reachable, and the weights used for the
relation draw are the example counts, which are always positive). -/

/-- The global args fields read inside RelationBatchSampler.__iter__. -/
structure Args where
  batch_size : Nat
  cake_ratio : ℚ
deriving Repr

/-- Python int() applied to a float/rational: truncation toward zero
(numerator T-division by the positive denominator). -/
def pyInt (q : ℚ) : Int := q.num.tdiv q.den

/-- The floor of a rational, computed on the normalized fraction. -/
def floorQ (q : ℚ) : Int := q.num.ediv q.den

/-- Modelled from the spec: Python round() — nearest integer with ties to
even — which the spec uses to state the constrained-portion target size.
It is compared against the pyInt truncation the code performs. -/
def pyRound (q : ℚ) : Int :=
  if q - (floorQ q : ℚ) < 1/2 then floorQ q
  else if (1 : ℚ)/2 < q - (floorQ q : ℚ) then floorQ q + 1
  else if floorQ q % 2 = 0 then floorQ q else floorQ q + 1

/-- random.choices(population, k): with-replacement sampling driven by the
pick oracle; k clamps at zero (itertools.repeat semantics) and an empty
population with positive k raises IndexError (none). -/
def pyChoices (population : List Nat) (k : Int) (pick : Nat → Nat) : Option (List Nat) :=
  if k ≤ 0 then some []
  else if population.isEmpty then none
  else some ((List.range k.toNat).map
    (fun j => population.getD (pick j % population.length) 0))

/-- RelationBatchSampler state: the five commonsense tables (ent_dom is
loaded but unused by the modelled operations), the constructor arguments
and the ds_info snapshot fields. -/
structure Sampler where
  ent_dom : List (String × List Nat)
  dom_ent : List (Nat × List String)
  rel2dom_h : List (String × List Nat)
  rel2dom_t : List (String × List Nat)
  rel2nn : List (String × Nat)
  batch_size : Nat
  cake_ratio : ℚ
  rels : List String
  rel2ent_t : List (String × List (String × List Nat))
  rel_ex_cnt : List (String × Nat)
  ex_cnt : Nat
  ex_hid : List (Nat × String)
  id2example : List (Nat × Example)

/-- self.length = len(self.rel_ex_cnt.keys()). -/
def Sampler.length (s : Sampler) : Nat := s.rel_ex_cnt.length

/-- The reverse_dict involution on cardinality classes inside
concept_filter; none models the KeyError on a value outside 0-3. -/
def reverse_dict : Nat → Option Nat
  | 0 => some 0
  | 1 => some 2
  | 2 => some 1
  | 3 => some 3
  | _ => none

/-- The candidate-pool computation of concept_filter: both branches first
read the rel2nn cardinality entry (remapped through reverse_dict for an
inverse relation; the value is bookkeeping only, but a missing key raises),
then resolve the domain concepts (head side for an inverse relation, tail
side otherwise), collect the domain entities observed as tails of the
relation, flatten to example indices and de-duplicate. -/
def conceptPool (s : Sampler) (relation : String) : Option (List Nat) := do
  let relation_concepts ←
    if relation.take 8 = "inverse " then do
      let nn ← dictGet s.rel2nn (relation.drop 8)
      let _rel2nn ← reverse_dict nn
      dictGet s.rel2dom_h (relation.drop 8)
    else do
      let _rel2nn ← dictGet s.rel2nn relation
      dictGet s.rel2dom_t relation
  let relation_ents ← dictGet s.rel2ent_t relation
  let dom_lists ← relation_concepts.mapM (fun concept => dictGet s.dom_ent concept)
  let rel_tail_ents := (dom_lists.flatMap id).filter (fun ent => dictMem relation_ents ent)
  let rel_tail_exs := rel_tail_ents.flatMap (fun ent => (dictGet relation_ents ent).getD [])
  some (pyDedup rel_tail_exs)

/-- concept_filter: compute the candidate pool, then draw example_size
samples with replacement from it. -/
def concept_filter (s : Sampler) (relation : String) (example_size : Nat)
    (pick : Nat → Nat) : Option (List Nat) := do
  let rel_tail_exs ← conceptPool s relation
  pyChoices rel_tail_exs (example_size : Int) pick

def samplerKeys (s : Sampler) : List String := s.rel_ex_cnt.map Prod.fst

/-- One unrolling of the while-loop of __iter__ (doc.py lines 323-340):
draw a relation (oracle component 1), skip it when already used this
iteration, otherwise accumulate batch_size // 8 concept_filter samples and
de-duplicate; rec is the continuation checking the loop condition again.
The head_id_list diagnostic only prints and is omitted. -/
def whileLoopBody (s : Sampler) (cake_sample_cnt : Int)
    (rec : (Nat → Nat × (Nat → Nat)) → List Nat → List String → Option (List Nat))
    (oracle : Nat → Nat × (Nat → Nat))
    (sampled_exs : List Nat) (sampled_relations : List String) : Option (List Nat) :=
  if (sampled_exs.length : Int) < cake_sample_cnt then
    match (samplerKeys s).get? ((oracle 0).1 % (samplerKeys s).length) with
    | none => none
    | some sampled_relation =>
      if sampled_relation ∈ sampled_relations then
        rec (fun n => oracle (n + 1)) sampled_exs sampled_relations
      else
        match concept_filter s sampled_relation (s.batch_size / 8) (oracle 0).2 with
        | none => none
        | some temp =>
          rec (fun n => oracle (n + 1))
            (pyDedup (sampled_exs ++ temp)) (sampled_relations ++ [sampled_relation])
  else some sampled_exs

def whileLoop (s : Sampler) (cake_sample_cnt : Int) :
    Nat → (Nat → Nat × (Nat → Nat)) → List Nat → List String → Option (List Nat)
  | 0, _, _, _ => none
  | fuel + 1, oracle, sampled_exs, sampled_relations =>
    whileLoopBody s cake_sample_cnt (whileLoop s cake_sample_cnt fuel)
      oracle sampled_exs sampled_relations

/-- cake_sample_cnt = int(args.batch_size * args.cake_ratio). -/
def cakeSampleCnt (args : Args) : Int := pyInt ((args.batch_size : ℚ) * args.cake_ratio)

/-- One iteration of the for-loop body of __iter__, split into the
constrained (cake) portion and the uniformly random portion. -/
def iterBatchParts (s : Sampler) (args : Args) (fuel : Nat)
    (oracle : Nat → Nat × (Nat → Nat)) (randPick : Nat → Nat) :
    Option (List Nat × List Nat) :=
  match whileLoop s (cakeSampleCnt args) fuel oracle [] [] with
  | none => none
  | some sampled_exs =>
    match pyChoices (List.range s.ex_cnt)
        ((args.batch_size : Int) - cakeSampleCnt args) randPick with
    | none => none
    | some rand => some (sampled_exs, rand)

/-- The yielded value of one __iter__ step: constrained plus random,
truncated to self.batch_size. -/
def iterBatch (s : Sampler) (args : Args) (fuel : Nat)
    (oracle : Nat → Nat × (Nat → Nat)) (randPick : Nat → Nat) : Option (List Nat) :=
  (iterBatchParts s args fuel oracle randPick).map
    (fun cr => (cr.1 ++ cr.2).take s.batch_size)

/-- Option-valued map collecting all results (the whole generator pass
succeeds only when every batch does). -/
def optMap {α β : Type} (f : α → Option β) : List α → Option (List β)
  | [] => some []
  | a :: rest => do
    let b ← f a
    let bs ← optMap f rest
    some (b :: bs)

/-- A full pass of __iter__: one batch per i in range(self.length), each
batch taking its own oracle pair. -/
def iterPass (s : Sampler) (args : Args) (fuel : Nat)
    (oracles : Nat → (Nat → Nat × (Nat → Nat)) × (Nat → Nat)) :
    Option (List (List Nat)) :=
  optMap (fun i => iterBatch s args fuel (oracles i).1 (oracles i).2)
    (List.range s.length)

/-! ds_info aliasing (doc.py lines 166-174).  A small object store models
Python object identity: copy() allocates a fresh top-level object carrying
the same payload, and the payload of the rel2ent_t outer dict holds the
addresses of its (shared) inner dicts.  ex_hid and idx2example are
returned without any copy. -/

/-- A heap object of one of the shapes ds_info deals with. -/
inductive PyObj where
  | listStr : List String → PyObj
  | dictStrAddr : List (String × Nat) → PyObj
  | dictStrListNat : List (String × List Nat) → PyObj
  | dictStrNat : List (String × Nat) → PyObj
  | dictNatStr : List (Nat × String) → PyObj
  | dictNatEx : List (Nat × Example) → PyObj
deriving DecidableEq, Repr

/-- The object store: address-keyed objects plus the next fresh address. -/
structure Store where
  objs : List (Nat × PyObj)
  next : Nat
deriving DecidableEq, Repr

def alloc (st : Store) (o : PyObj) : Nat × Store :=
  (st.next, ⟨st.objs ++ [(st.next, o)], st.next + 1⟩)

/-- In-place mutation of the object at address a. -/
def storeSet (st : Store) (a : Nat) (o : PyObj) : Store :=
  ⟨dictSet st.objs a o, st.next⟩

/-- The Dataset as resident in the store: one address per index structure. -/
structure DatasetH where
  relsA : Nat
  rel2entA : Nat
  relExCntA : Nat
  exHidA : Nat
  id2exA : Nat
  ex_cnt : Nat
deriving DecidableEq, Repr

/-- The dict returned by ds_info, as addresses plus the ex_cnt value. -/
structure DsInfo where
  relsA : Nat
  rel2entA : Nat
  relExCntA : Nat
  exHidA : Nat
  id2exA : Nat
  ex_cnt : Nat
deriving DecidableEq, Repr

/-- ds_info: copy(self.rels), copy(self.rel2ent_t) and copy(self.rel_ex_cnt)
allocate fresh top-level objects with identical payloads (for rel2ent_t the
payload still points at the shared inner dicts); ex_hid and idx2example are
handed out by reference. -/
def ds_info (ds : DatasetH) (st : Store) : Option (DsInfo × Store) :=
  match dictGet st.objs ds.relsA with
  | none => none
  | some relsObj =>
    match dictGet st.objs ds.rel2entA with
    | none => none
    | some relObj =>
      match dictGet st.objs ds.relExCntA with
      | none => none
      | some cntObj =>
        let (a1, st1) := alloc st relsObj
        let (a2, st2) := alloc st1 relObj
        let (a3, st3) := alloc st2 cntObj
        some (⟨a1, a2, a3, ds.exHidA, ds.id2exA, ds.ex_cnt⟩, st3)

/-- Everything the Dataset can read through its own references: the five
top-level objects plus the inner dicts reached through rel2ent_t. -/
def DatasetH.view (ds : DatasetH) (st : Store) :
    Option PyObj × Option PyObj × List (String × Option PyObj) ×
      Option PyObj × Option PyObj × Option PyObj :=
  (dictGet st.objs ds.relsA,
   dictGet st.objs ds.rel2entA,
   (match dictGet st.objs ds.rel2entA with
    | some (.dictStrAddr m) => m.map (fun kv => (kv.1, dictGet st.objs kv.2))
    | _ => ([] : List (String × Option PyObj))),
   dictGet st.objs ds.relExCntA,
   dictGet st.objs ds.exHidA,
   dictGet st.objs ds.id2exA)

/-- All inner-dict addresses reachable from the rel2ent_t outer object lie
below the allocation frontier. -/
def innerOk (st : Store) (a : Nat) : Bool :=
  match dictGet st.objs a with
  | some (.dictStrAddr m) => m.all (fun kv => kv.2 < st.next)
  | _ => true

/-- Well-formedness of a store-resident Dataset: its five addresses and the
rel2ent_t inner addresses are already allocated (below next). -/
def DatasetH.wf (ds : DatasetH) (st : Store) : Bool :=
  decide (ds.relsA < st.next) && decide (ds.rel2entA < st.next) &&
  decide (ds.relExCntA < st.next) && decide (ds.exHidA < st.next) &&
  decide (ds.id2exA < st.next) && innerOk st ds.rel2entA

/-! Concrete fixtures used to instantiate the theorems below. -/

/-- A one-relation sampler whose constrained loop terminates:
batch_size 8 gives per-relation contribution 8 // 8 = 1 and the
cake target int(8 * 1/8) = 1. -/
def sGood : Sampler :=
  { ent_dom := [], dom_ent := [(0, ["t"])], rel2dom_h := [("r", [0])],
    rel2dom_t := [("r", [0])], rel2nn := [("r", 0)],
    batch_size := 8, cake_ratio := 1/8,
    rels := ["r"], rel2ent_t := [("r", [("t", [0])])],
    rel_ex_cnt := [("r", 1)], ex_cnt := 2,
    ex_hid := [(0, "h")], id2example := [(0, ⟨"h", "r", "t"⟩)] }

def argsGood : Args := ⟨8, 1/8⟩

def oGood : Nat → Nat × (Nat → Nat) := fun _ => (0, fun _ => 0)

def pGood : Nat → Nat := fun _ => 0

/-- batch_size 10 with cake_ratio 0.15: the truncated target int(1.5) = 1
disagrees with the round(1.5) = 2 the spec states. -/
def s4c : Sampler :=
  { ent_dom := [], dom_ent := [(0, ["t"])], rel2dom_h := [("r", [0])],
    rel2dom_t := [("r", [0])], rel2nn := [("r", 0)],
    batch_size := 10, cake_ratio := 3/20,
    rels := ["r"], rel2ent_t := [("r", [("t", [0])])],
    rel_ex_cnt := [("r", 1)], ex_cnt := 1,
    ex_hid := [(0, "h")], id2example := [(0, ⟨"h", "r", "t"⟩)] }

def args4c : Args := ⟨10, 3/20⟩

/-- A sampler where relation q has an empty candidate pool (its domain 7
holds no entities) while relation r has the nonempty pool [3]. -/
def s5 : Sampler :=
  { ent_dom := [], dom_ent := [(0, ["t"]), (7, [])],
    rel2dom_h := [("r", [0]), ("q", [7])],
    rel2dom_t := [("r", [0]), ("q", [7])], rel2nn := [("r", 0), ("q", 1)],
    batch_size := 8, cake_ratio := 1/8,
    rels := ["r", "q"], rel2ent_t := [("r", [("t", [3])]), ("q", [("u", [4])])],
    rel_ex_cnt := [("r", 1), ("q", 1)], ex_cnt := 5,
    ex_hid := [], id2example := [] }

/-- batch_size 4 makes every concept_filter contribution 4 // 8 = 0 items
while the cake target int(4 * 1/2) = 2 is positive: the sampled set never
grows and the while-loop cannot finish. -/
def sStuck : Sampler :=
  { ent_dom := [], dom_ent := [(0, ["t"])], rel2dom_h := [("r", [0])],
    rel2dom_t := [("r", [0])], rel2nn := [("r", 0)],
    batch_size := 4, cake_ratio := 1/2,
    rels := ["r"], rel2ent_t := [("r", [("t", [0])])],
    rel_ex_cnt := [("r", 1)], ex_cnt := 1,
    ex_hid := [(0, "h")], id2example := [(0, ⟨"h", "r", "t"⟩)] }

def argsStuck : Args := ⟨4, 1/2⟩

/-- A concrete store: addresses 0-4 hold the five dataset structures,
address 5 the single inner tail-dict of rel2ent_t. -/
def st8 : Store :=
  ⟨[(0, .listStr ["r"]), (1, .dictStrAddr [("r", 5)]), (2, .dictStrNat [("r", 1)]),
    (3, .dictNatStr [(0, "h")]), (4, .dictNatEx [(0, ⟨"h", "r", "t"⟩)]),
    (5, .dictStrListNat [("t", [0])])], 6⟩

def ds8 : DatasetH := ⟨0, 1, 2, 3, 4, 1⟩

/-- The store after ds_info on ds8/st8 (three fresh copies at 6, 7, 8). -/
def st8' : Store :=
  ⟨[(0, .listStr ["r"]), (1, .dictStrAddr [("r", 5)]), (2, .dictStrNat [("r", 1)]),
    (3, .dictNatStr [(0, "h")]), (4, .dictNatEx [(0, ⟨"h", "r", "t"⟩)]),
    (5, .dictStrListNat [("t", [0])]),
    (6, .listStr ["r"]), (7, .dictStrAddr [("r", 5)]), (8, .dictStrNat [("r", 1)])], 9⟩

def info8 : DsInfo := ⟨6, 7, 8, 3, 4, 1⟩

/-! Shared lemmas. -/

theorem overwriteRow_replicate {α : Type} (mx : Nat) (a : α) (row : List α) :
    overwriteRow (List.replicate mx a) row = row ++ List.replicate (mx - row.length) a := by
  simp [overwriteRow, List.drop_replicate]

theorem pyChoices_length (population : List Nat) (k : Int) (pick : Nat → Nat)
    (l : List Nat) (h : pyChoices population k pick = some l) :
    l.length = k.toNat := by
  unfold pyChoices at h
  split at h
  · cases h
    simp
    omega
  · split at h
    · cases h
    · cases h
      simp

theorem whileLoop_some_ge (s : Sampler) (cnt : Int) (fuel : Nat) :
    ∀ (oracle : Nat → Nat × (Nat → Nat)) (exs : List Nat) (rels : List String)
      (res : List Nat), whileLoop s cnt fuel oracle exs rels = some res →
      cnt ≤ (res.length : Int) := by
  induction fuel with
  | zero => intro oracle exs rels res h; cases h
  | succ n ih =>
    intro oracle exs rels res h
    rw [whileLoop, whileLoopBody] at h
    split at h
    · split at h
      · cases h
      · split at h
        · exact ih _ _ _ _ h
        · split at h
          · cases h
          · exact ih _ _ _ _ h
    · cases h
      omega

theorem optMap_length {α β : Type} (f : α → Option β) :
    ∀ (l : List α) (l2 : List β), optMap f l = some l2 → l2.length = l.length := by
  intro l
  induction l with
  | nil => intro l2 h; cases h; rfl
  | cons a rest ih =>
    intro l2 h
    unfold optMap at h
    cases hf : f a with
    | none => rw [hf] at h; cases h
    | some b =>
      rw [hf] at h
      cases hr : optMap f rest with
      | none => rw [hr] at h; cases h
      | some bs =>
        rw [hr] at h
        cases h
        simp [ih bs hr]

theorem dictGet_dictSet_ne {κ β : Type} [DecidableEq κ] (l : List (κ × β))
    (a k : κ) (v : β) (h : k ≠ a) : dictGet (dictSet l a v) k = dictGet l k := by
  have ha : ¬ a = k := fun e => h e.symm
  induction l with
  | nil => simp [dictGet, dictSet, ha]
  | cons p rest ih =>
    obtain ⟨pk, pv⟩ := p
    by_cases hp : pk = a
    · rw [show dictSet ((pk, pv) :: rest) a v = (pk, v) :: rest by
        simp [dictSet, if_pos hp]]
      have hk : ¬ pk = k := by rw [hp]; exact ha
      simp [dictGet, hk]
    · rw [show dictSet ((pk, pv) :: rest) a v = (pk, pv) :: dictSet rest a v by
        simp [dictSet, if_neg hp]]
      by_cases hk : pk = k
      · simp [dictGet, hk]
      · simp [dictGet, hk, ih]

theorem dictGet_append_right_none {κ β : Type} [DecidableEq κ]
    (l1 l2 : List (κ × β)) (k : κ) (h : dictGet l2 k = none) :
    dictGet (l1 ++ l2) k = dictGet l1 k := by
  induction l1 with
  | nil => simpa [dictGet] using h
  | cons p rest ih =>
    by_cases hk : p.1 = k
    · simp [dictGet, hk]
    · simp [dictGet, hk, ih]

/-! Claim theorems. -/

/-- C1: evaluating the Dataset.__init__ index construction on two examples
sharing the same (relation, tail_id): the bucket assignment
rel2ent_t[relation][tail_id] = [i] overwrites the previous content, so the
first example index appears in zero buckets instead of exactly one. -/
theorem c1_bucket_overwrite_eval :
    bucketCount (buildIdx [⟨"h1", "r", "t"⟩, ⟨"h2", "r", "t"⟩]) 0 = 0 ∧
    bucketCount (buildIdx [⟨"h1", "r", "t"⟩, ⟨"h2", "r", "t"⟩]) 1 = 1 ∧
    (buildIdx [⟨"h1", "r", "t"⟩, ⟨"h2", "r", "t"⟩]).rel2ent_t = [("r", [("t", [1])])] := by
  decide

/-- C9: to_indices_and_mask on an empty batch models the ValueError raised
by max over an empty collection and yields none, so the padding round-trip
only holds under the nonempty-batch precondition. -/
theorem c9_empty_batch_raises (pad_token_id : Int) (need_mask : Bool) :
    to_indices_and_mask [] pad_token_id need_mask = none := rfl

/-- C6: for a nonempty batch, row i of the padded matrix is the original
sequence followed by pad_token_id up to the batch maximum length, the mask
row is 1 exactly on that prefix and 0 elsewhere, and with need_mask = false
only the matrix is produced. -/
theorem c6_pad_mask_roundtrip (batch : List (List Int)) (pad_token_id : Int)
    (hne : batch ≠ []) :
    ∃ (indices : List (List Int)) (mask : List (List Nat)),
      to_indices_and_mask batch pad_token_id true = some (indices, some mask) ∧
      to_indices_and_mask batch pad_token_id false = some (indices, none) ∧
      (∀ (i : Nat) (row : List Int), batch[i]? = some row →
        indices[i]? = some (row ++ List.replicate
          (((batch.map List.length).foldl Nat.max 0) - row.length) pad_token_id) ∧
        mask[i]? = some (List.replicate row.length 1 ++ List.replicate
          (((batch.map List.length).foldl Nat.max 0) - row.length) (0 : Nat))) := by
  have hB : batch.isEmpty = false := by
    cases batch with
    | nil => exact absurd rfl hne
    | cons a l => rfl
  refine ⟨batch.map (fun t => overwriteRow
      (List.replicate ((batch.map List.length).foldl Nat.max 0) pad_token_id) t),
    batch.map (fun t => overwriteRow
      (List.replicate ((batch.map List.length).foldl Nat.max 0) (0 : Nat))
      (List.replicate t.length 1)), ?_, ?_, ?_⟩
  · simp [to_indices_and_mask, hB]
  · simp [to_indices_and_mask, hB]
  · intro i row hrow
    constructor
    · rw [List.getElem?_map, hrow]
      simp [overwriteRow_replicate]
    · rw [List.getElem?_map, hrow]
      simp [overwriteRow_replicate]

/-- Witness for C6 at a concrete two-row batch. -/
theorem c6_witness :
    ∃ (indices : List (List Int)) (mask : List (List Nat)),
      to_indices_and_mask [[5], [1, 2]] 9 true = some (indices, some mask) ∧
      to_indices_and_mask [[5], [1, 2]] 9 false = some (indices, none) ∧
      (∀ (i : Nat) (row : List Int), ([[5], [1, 2]] : List (List Int))[i]? = some row →
        indices[i]? = some (row ++ List.replicate
          ((([[5], [1, 2]] : List (List Int)).map List.length).foldl Nat.max 0 - row.length) 9) ∧
        mask[i]? = some (List.replicate row.length 1 ++ List.replicate
          ((([[5], [1, 2]] : List (List Int)).map List.length).foldl Nat.max 0 - row.length) (0 : Nat))) :=
  c6_pad_mask_roundtrip [[5], [1, 2]] 9 (by decide)

theorem load_data_eq (path : String) (data : List Triplet) (rev : Triplet → Triplet)
    (fwd bwd : Bool) (hp : pyEndsWith path ".json" = true) (hfb : (fwd || bwd) = true) :
    load_data path data rev fwd bwd = some (data.flatMap fun obj =>
      (if fwd then [exampleOfTriplet obj] else []) ++
      (if bwd then [exampleOfTriplet (rev obj)] else [])) := by
  simp [load_data, hp, hfb]

theorem load_flat_length (data : List Triplet) (rev : Triplet → Triplet) (fwd bwd : Bool) :
    (data.flatMap fun obj =>
      (if fwd then [exampleOfTriplet obj] else []) ++
      (if bwd then [exampleOfTriplet (rev obj)] else [])).length
      = data.length * ((cond fwd 1 0) + (cond bwd 1 0)) := by
  induction data with
  | nil => simp
  | cons a rest ih =>
    rw [List.flatMap_cons, List.length_append, ih, List.length_cons]
    cases fwd <;> cases bwd <;> simp <;> ring

/-- C7: loading files with N triplet objects in total yields a dataset of
exactly N * (forward_enabled + backward_enabled) examples, and with both
directions enabled the example list alternates forward, backward per input
triplet in insertion order. -/
theorem c7_dataset_length (files : List (String × List Triplet)) (rev : Triplet → Triplet)
    (fwd bwd : Bool)
    (hp : ∀ pd ∈ files, pyEndsWith pd.1 ".json" = true)
    (hfb : (fwd || bwd) = true) :
    ∃ exs : List Example, loadFiles rev fwd bwd files = some exs ∧
      exs.length = ((files.map (fun pd => pd.2.length)).sum) *
        ((cond fwd 1 0) + (cond bwd 1 0)) ∧
      (fwd = true → bwd = true →
        exs = ((files.map Prod.snd).flatten).flatMap
          (fun obj => [exampleOfTriplet obj, exampleOfTriplet (rev obj)])) := by
  induction files with
  | nil => exact ⟨[], rfl, by simp, fun _ _ => by simp⟩
  | cons pd rest ih =>
    obtain ⟨exs, hrec, hlen, halt⟩ := ih (fun x hx => hp x (List.mem_cons_of_mem _ hx))
    refine ⟨(pd.2.flatMap fun obj =>
      (if fwd then [exampleOfTriplet obj] else []) ++
      (if bwd then [exampleOfTriplet (rev obj)] else [])) ++ exs, ?_, ?_, ?_⟩
    · simp only [loadFiles,
        load_data_eq pd.1 pd.2 rev fwd bwd (hp pd (List.mem_cons_self _ _)) hfb,
        hrec, Option.bind_eq_bind, Option.some_bind]
    · rw [List.length_append, load_flat_length, hlen, List.map_cons, List.sum_cons,
        Nat.add_mul]
    · intro hf hb
      subst hf
      subst hb
      simp [halt rfl rfl]

/-- Witness for C7: two files with one triplet each, both directions. -/
theorem c7_witness :
    ∃ exs : List Example,
      loadFiles (fun t => ⟨t.tail_id, "inverse " ++ t.relation, t.head_id⟩) true true
        [("a.json", [⟨"e1", "r1", "e2"⟩]), ("b.json", [⟨"e3", "r2", "e4"⟩])] = some exs ∧
      exs.length = (([("a.json", [(⟨"e1", "r1", "e2"⟩ : Triplet)]),
          ("b.json", [⟨"e3", "r2", "e4"⟩])].map
            (fun pd => pd.2.length)).sum) * ((cond true 1 0) + (cond true 1 0)) ∧
      (true = true → true = true →
        exs = (([("a.json", [(⟨"e1", "r1", "e2"⟩ : Triplet)]),
            ("b.json", [⟨"e3", "r2", "e4"⟩])].map Prod.snd).flatten).flatMap
          (fun obj => [exampleOfTriplet obj,
            exampleOfTriplet ((fun t => ⟨t.tail_id, "inverse " ++ t.relation, t.head_id⟩) obj)])) :=
  c7_dataset_length
    [("a.json", [⟨"e1", "r1", "e2"⟩]), ("b.json", [⟨"e3", "r2", "e4"⟩])]
    (fun t => ⟨t.tail_id, "inverse " ++ t.relation, t.head_id⟩) true true
    (by decide) rfl

/-- C5: with the table lookups of concept_filter resolving to the candidate
pool, an empty pool with positive requested size fails (none); size zero
returns the empty list even on an empty pool; and any successful result has
exactly the requested length, never fewer. -/
theorem c5_concept_filter_pool (s : Sampler) (relation : String) (k : Nat)
    (pick : Nat → Nat) (pool : List Nat)
    (hpool : conceptPool s relation = some pool) :
    (pool = [] → 0 < k → concept_filter s relation k pick = none) ∧
    (k = 0 → concept_filter s relation k pick = some []) ∧
    (∀ l, concept_filter s relation k pick = some l → l.length = k) := by
  refine ⟨?_, ?_, ?_⟩
  · intro hemp hk
    have hkk : ¬ ((k : Int) ≤ 0) := by omega
    simp [concept_filter, hpool, pyChoices, hemp, hkk]
  · intro hk0
    subst hk0
    simp [concept_filter, hpool, pyChoices]
  · intro l h
    simp only [concept_filter, hpool, Option.bind_eq_bind, Option.some_bind] at h
    have := pyChoices_length pool (k : Int) pick l h
    simpa using this

/-- Witness for C5: in s5 relation q has an empty pool, relation r the pool
[3]. -/
theorem c5_witness :
    concept_filter s5 "q" 1 (fun _ => 0) = none ∧
    concept_filter s5 "q" 0 (fun _ => 0) = some [] ∧
    (concept_filter s5 "r" 2 (fun _ => 0) = some [3, 3] ∧
      ∀ l, concept_filter s5 "r" 2 (fun _ => 0) = some l → l.length = 2) :=
  ⟨(c5_concept_filter_pool s5 "q" 1 (fun _ => 0) [] (by decide)).1 rfl (by decide),
   (c5_concept_filter_pool s5 "q" 0 (fun _ => 0) [] (by decide)).2.1 rfl,
   by decide,
   (c5_concept_filter_pool s5 "r" 2 (fun _ => 0) [3] (by decide)).2.2⟩

/-- The two portions of a successful __iter__ step: the constrained part
reached the cake target and the random part has the requested size. -/
theorem iterBatchParts_inv (s : Sampler) (args : Args) (fuel : Nat)
    (oracle : Nat → Nat × (Nat → Nat)) (randPick : Nat → Nat) (cake rand : List Nat)
    (h : iterBatchParts s args fuel oracle randPick = some (cake, rand)) :
    cakeSampleCnt args ≤ (cake.length : Int) ∧
    rand.length = ((args.batch_size : Int) - cakeSampleCnt args).toNat := by
  unfold iterBatchParts at h
  split at h
  · cases h
  · next sampled_exs hw =>
    split at h
    · cases h
    · next rand2 hr =>
      cases h
      exact ⟨whileLoop_some_ge _ _ _ _ _ _ _ hw, pyChoices_length _ _ _ _ hr⟩

/-- C2: whenever one __iter__ step completes (concept_filter never raised
and the while-loop finished) and the sampler was constructed with the
configured batch size, the yielded index list has length exactly
batch_size. -/
theorem c2_batch_length (s : Sampler) (args : Args) (fuel : Nat)
    (oracle : Nat → Nat × (Nat → Nat)) (randPick : Nat → Nat) (batch : List Nat)
    (hbs : args.batch_size = s.batch_size)
    (h : iterBatch s args fuel oracle randPick = some batch) :
    batch.length = s.batch_size := by
  unfold iterBatch at h
  cases hp : iterBatchParts s args fuel oracle randPick with
  | none => rw [hp] at h; cases h
  | some cr =>
    rw [hp] at h
    obtain ⟨cake, rand⟩ := cr
    obtain ⟨h1, h2⟩ := iterBatchParts_inv s args fuel oracle randPick cake rand hp
    simp only [Option.map_some'] at h
    cases h
    rw [List.length_take, List.length_append]
    omega

/-- Witness for C2 on a terminating concrete run of sGood. -/
theorem c2_witness : ([0, 0, 0, 0, 0, 0, 0, 0] : List Nat).length = sGood.batch_size :=
  c2_batch_length sGood argsGood 2 oGood pGood [0, 0, 0, 0, 0, 0, 0, 0] rfl (by
    have hc : cakeSampleCnt argsGood = 1 := by
      norm_num [cakeSampleCnt, argsGood, pyInt]
    unfold iterBatch iterBatchParts
    rw [hc]
    decide)

/-- C4 (amended): the constrained-portion target the loop works toward is
int(batch_size * cake_ratio), truncation toward zero, not Python round();
the loop stops once the de-duplicated set holds at least that many indices
and the random portion has size batch_size minus that target (clamped at
zero); for batch_size 10 and cake_ratio 0.15 the target is int(1.5) = 1. -/
theorem c4_portion_sizes (s : Sampler) (args : Args) (fuel : Nat)
    (oracle : Nat → Nat × (Nat → Nat)) (randPick : Nat → Nat) (cake rand : List Nat)
    (h : iterBatchParts s args fuel oracle randPick = some (cake, rand)) :
    cakeSampleCnt args ≤ (cake.length : Int) ∧
    rand.length = ((args.batch_size : Int) - cakeSampleCnt args).toNat ∧
    cakeSampleCnt ⟨10, 3/20⟩ = 1 := by
  obtain ⟨h1, h2⟩ := iterBatchParts_inv s args fuel oracle randPick cake rand h
  refine ⟨h1, h2, ?_⟩
  norm_num [cakeSampleCnt, pyInt]
  decide

/-- C4 counterexample: with batch_size 10 and cake_ratio 0.15 the code
truncates int(1.5) = 1 where the claim demands round(1.5) = 2, and a
concrete run yields a random portion of 9 indices, not 10 - 2 = 8. -/
theorem c4_counterexample :
    pyRound ((10 : ℚ) * (3/20)) = 2 ∧
    cakeSampleCnt args4c = 1 ∧
    iterBatchParts s4c args4c 2 oGood pGood = some ([0], [0, 0, 0, 0, 0, 0, 0, 0, 0]) ∧
    ([0, 0, 0, 0, 0, 0, 0, 0, 0] : List Nat).length ≠
      ((10 : Int) - pyRound ((10 : ℚ) * (3/20))).toNat := by
  have hround : pyRound ((10 : ℚ) * (3/20)) = 2 := by
    rw [show ((10 : ℚ) * (3/20)) = 3/2 by norm_num]
    norm_num [pyRound, floorQ]
  have hc : cakeSampleCnt args4c = 1 := by
    norm_num [cakeSampleCnt, args4c, pyInt]
    decide
  refine ⟨hround, hc, ?_, ?_⟩
  · unfold iterBatchParts
    rw [hc]
    decide
  · rw [hround]
    decide

/-- Witness for C4 on a terminating concrete run of s4c. -/
theorem c4_witness :
    cakeSampleCnt args4c ≤ (([0] : List Nat).length : Int) ∧
    ([0, 0, 0, 0, 0, 0, 0, 0, 0] : List Nat).length =
      ((args4c.batch_size : Int) - cakeSampleCnt args4c).toNat ∧
    cakeSampleCnt ⟨10, 3/20⟩ = 1 :=
  c4_portion_sizes s4c args4c 2 oGood pGood [0] [0, 0, 0, 0, 0, 0, 0, 0, 0] (by
    have hc : cakeSampleCnt args4c = 1 := by
      norm_num [cakeSampleCnt, args4c, pyInt]
      decide
    unfold iterBatchParts
    rw [hc]
    decide)

/-- C3 (amended): a full pass of __iter__ produces exactly self.length
batches (one per distinct relation) whenever every while-loop terminates;
in the embedding a pass is a pure function of the sampler and the oracle,
so every call restarts afresh. -/
theorem c3_pass_batches (s : Sampler) (args : Args) (fuel : Nat)
    (oracles : Nat → (Nat → Nat × (Nat → Nat)) × (Nat → Nat))
    (batches : List (List Nat))
    (h : iterPass s args fuel oracles = some batches) :
    batches.length = s.length := by
  unfold iterPass at h
  have := optMap_length _ _ _ h
  simpa using this

/-- Witness for C3 on a terminating concrete pass of sGood. -/
theorem c3_witness : ([[0, 0, 0, 0, 0, 0, 0, 0]] : List (List Nat)).length = sGood.length :=
  c3_pass_batches sGood argsGood 2 (fun _ => (oGood, pGood)) [[0, 0, 0, 0, 0, 0, 0, 0]] (by
    have hc : cakeSampleCnt argsGood = 1 := by
      norm_num [cakeSampleCnt, argsGood, pyInt]
    simp only [iterPass, iterBatch, iterBatchParts, hc]
    decide)

/-- In sStuck each relation contributes batch_size // 8 = 0 indices, so the
accumulated set stays empty and the while-loop never meets its target. -/
theorem whileLoop_sStuck_none :
    ∀ (fuel : Nat) (oracle : Nat → Nat × (Nat → Nat)) (rels : List String),
      whileLoop sStuck 2 fuel oracle [] rels = none := by
  intro fuel
  induction fuel with
  | zero => intro oracle rels; rfl
  | succ n ih =>
    intro oracle rels
    rw [whileLoop, whileLoopBody]
    rw [if_pos (show ((([] : List Nat).length : Int) < 2) by norm_num)]
    rw [show samplerKeys sStuck = ["r"] from rfl]
    rw [show (["r"] : List String).length = 1 from rfl, Nat.mod_one]
    rw [show (["r"] : List String).get? 0 = some "r" from rfl]
    show (if "r" ∈ rels then _ else _) = none
    by_cases hr : "r" ∈ rels
    · rw [if_pos hr]
      exact ih _ _
    · rw [if_neg hr]
      rw [show concept_filter sStuck "r" (sStuck.batch_size / 8) (oracle 0).2
          = some [] from rfl]
      show whileLoop sStuck 2 n _ (pyDedup ([] ++ [])) (rels ++ ["r"]) = none
      exact ih _ _

/-- C3 counterexample: for sStuck (batch_size // 8 = 0 together with the
positive cake target int(4 * 0.5) = 2) no amount of fuel and no random
choices let a pass of __iter__ complete: the while-loop of the very first
batch never terminates, so the claim that such a pass still completes is
false. -/
theorem c3_counterexample :
    ¬ ∃ (fuel : Nat) (oracles : Nat → (Nat → Nat × (Nat → Nat)) × (Nat → Nat)),
      (iterPass sStuck argsStuck fuel oracles).isSome = true := by
  rintro ⟨fuel, oracles, h⟩
  have hc : cakeSampleCnt argsStuck = 2 := by
    norm_num [cakeSampleCnt, argsStuck, pyInt]
  have hb : iterBatch sStuck argsStuck fuel (oracles 0).1 (oracles 0).2 = none := by
    unfold iterBatch iterBatchParts
    rw [hc, whileLoop_sStuck_none fuel (oracles 0).1 []]
    rfl
  have hnone : iterPass sStuck argsStuck fuel oracles = none := by
    unfold iterPass
    rw [show sStuck.length = 1 from rfl]
    rw [show List.range 1 = [0] from rfl]
    unfold optMap
    rw [hb]
    rfl
  rw [hnone] at h
  cases h

theorem dictGet_append_single_ne {κ β : Type} [DecidableEq κ] (l : List (κ × β))
    (a k : κ) (v : β) (h : ¬ a = k) : dictGet (l ++ [(a, v)]) k = dictGet l k :=
  dictGet_append_right_none _ _ _ (by simp [dictGet, h])

/-- C10: an Example whose head_id is empty (falsy) resolves head and
head_desc to the empty string without consulting the entity directory,
while tail and tail_desc always delegate to it; vectorize on such an
example therefore succeeds against a directory holding no entry for the
missing head (stated without link-graph augmentation, which reads the
directory only for neighbor ids, never for the head itself). -/
theorem c10_empty_head (cfg : Config) (cl : Collab) (edict : List (String × Entity))
    (e : Example) (ent : Entity)
    (hh : e.head_id = "") (hlg : cfg.use_link_graph = false)
    (ht : dictGet edict e.tail_id = some ent) :
    e.head edict = some "" ∧ e.head_desc edict = some "" ∧
    (∀ d, Example.tail e d = (dictGet d e.tail_id).map Entity.entity) ∧
    (∀ d, Example.tail_desc e d = (dictGet d e.tail_id).map Entity.entity_desc) ∧
    (e.vectorize cfg cl edict).isSome = true := by
  refine ⟨by simp [Example.head, hh], by simp [Example.head_desc, hh],
    fun d => rfl, fun d => rfl, ?_⟩
  simp [Example.vectorize, Example.head, Example.head_desc, Example.tail,
    Example.tail_desc, hh, hlg, ht]

/-- Witness for C10: concrete example with empty head_id against a
directory containing only the tail entity. -/
theorem c10_witness :
    Example.head ⟨"", "r", "t"⟩ [("t", ⟨"T", "Td"⟩)] = some "" ∧
    Example.head_desc ⟨"", "r", "t"⟩ [("t", ⟨"T", "Td"⟩)] = some "" ∧
    (∀ d, Example.tail ⟨"", "r", "t"⟩ d = (dictGet d "t").map Entity.entity) ∧
    (∀ d, Example.tail_desc ⟨"", "r", "t"⟩ d = (dictGet d "t").map Entity.entity_desc) ∧
    (Example.vectorize ⟨"wn18rr", false, false⟩
      ⟨fun _ _ => ⟨[1], [0]⟩, fun _ => []⟩ [("t", ⟨"T", "Td"⟩)]
      ⟨"", "r", "t"⟩).isSome = true :=
  c10_empty_head ⟨"wn18rr", false, false⟩ ⟨fun _ _ => ⟨[1], [0]⟩, fun _ => []⟩
    [("t", ⟨"T", "Td"⟩)] ⟨"", "r", "t"⟩ ⟨"T", "Td"⟩ rfl rfl (by decide)

/-- C8 counterexample: ds_info returns the ex_hid dictionary by reference
(no copy at all), so mutating the returned object changes what the Dataset
itself reads back, falsifying the claim that any mutation of the returned
structures leaves the Dataset unchanged. -/
theorem c8_counterexample :
    ds_info ds8 st8 = some (info8, st8') ∧
    info8.exHidA = ds8.exHidA ∧
    dictGet (storeSet st8' info8.exHidA (.dictNatStr [(0, "X")])).objs ds8.exHidA ≠
      dictGet st8.objs ds8.exHidA := by
  decide

/-- C8 (amended): the top-level copies of rels, rel2ent_t and rel_ex_cnt
returned by ds_info are freshly allocated objects, so mutating any of those
three returned objects leaves everything the Dataset reads through its own
references (including the shared inner dicts of rel2ent_t) unchanged;
ex_hid and idx2example, by contrast, are returned by reference and inner
dicts are shared, so mutations through them do reach the Dataset. -/
theorem c8_info_copy_isolation (ds : DatasetH) (st st' : Store) (info : DsInfo)
    (hwf : ds.wf st = true)
    (hinfo : ds_info ds st = some (info, st'))
    (a : Nat) (o : PyObj)
    (ha : a = info.relsA ∨ a = info.rel2entA ∨ a = info.relExCntA) :
    DatasetH.view ds (storeSet st' a o) = DatasetH.view ds st' := by
  unfold DatasetH.wf at hwf
  simp only [Bool.and_eq_true, decide_eq_true_eq] at hwf
  obtain ⟨⟨⟨⟨⟨hw1, hw2⟩, hw3⟩, hw4⟩, hw5⟩, hw6⟩ := hwf
  unfold ds_info at hinfo
  split at hinfo
  · cases hinfo
  · next relsObj h1 =>
    split at hinfo
    · cases hinfo
    · next relObj h2 =>
      split at hinfo
      · cases hinfo
      · next cntObj h3 =>
        simp only [alloc, Option.some.injEq, Prod.mk.injEq] at hinfo
        obtain ⟨hI, hS⟩ := hinfo
        subst hI
        subst hS
        simp only at ha
        have haN : st.next ≤ a := by omega
        have hb : ∀ b, b < st.next →
            dictGet (storeSet ⟨((st.objs ++ [(st.next, relsObj)]) ++
                [(st.next + 1, relObj)]) ++ [(st.next + 2, cntObj)],
                st.next + 3⟩ a o).objs b =
            dictGet (((st.objs ++ [(st.next, relsObj)]) ++
                [(st.next + 1, relObj)]) ++ [(st.next + 2, cntObj)]) b := by
          intro b hbn
          exact dictGet_dictSet_ne _ _ _ _ (by omega)
        have hq : ∀ b, b < st.next →
            dictGet (((st.objs ++ [(st.next, relsObj)]) ++
                [(st.next + 1, relObj)]) ++ [(st.next + 2, cntObj)]) b =
            dictGet st.objs b := by
          intro b hbn
          rw [dictGet_append_single_ne _ _ _ _ (by omega),
            dictGet_append_single_ne _ _ _ _ (by omega),
            dictGet_append_single_ne _ _ _ _ (by omega)]
        unfold DatasetH.view
        rw [hb ds.relsA hw1, hb ds.rel2entA hw2, hb ds.relExCntA hw3,
          hb ds.exHidA hw4, hb ds.id2exA hw5]
        refine Prod.ext rfl (Prod.ext rfl (Prod.ext ?_ rfl))
        rw [hq ds.rel2entA hw2, h2]
        unfold innerOk at hw6
        rw [h2] at hw6
        cases relObj with
        | dictStrAddr m =>
          simp only [List.all_eq_true, decide_eq_true_eq] at hw6
          refine List.map_congr_left ?_
          intro kv hkv
          have hlt := hw6 kv hkv
          simp only [storeSet]
          rw [dictGet_dictSet_ne _ _ _ _ (by omega)]
        | listStr m => rfl
        | dictStrListNat m => rfl
        | dictStrNat m => rfl
        | dictNatStr m => rfl
        | dictNatEx m => rfl

/-- Witness for C8: mutating the fresh copy of rels returned by ds_info on
the concrete store leaves the Dataset's whole view intact. -/
theorem c8_witness :
    DatasetH.view ds8 (storeSet st8' info8.relsA (.listStr ["MUT"])) =
      DatasetH.view ds8 st8' :=
  c8_info_copy_isolation ds8 st8 st8' info8 (by decide) (by decide)
    info8.relsA (.listStr ["MUT"]) (Or.inl rfl)

end CocaKE
